import Mathlib

/-!
Shallow embedding of the widget layout / invalidation / render core of
`src/widget.c` (awesome window manager, wibox widget pipeline).

Lua-side values (the widget table, the layout policy function, object
references) are modelled explicitly; the scripting engine and drawing
back end are traced rather than executed: every back-end call the code
would make is recorded in order in a list of `draw_call` values, and
Lua object reference operations are recorded as `lua_effect` values.
C `int` fields are modelled as `Int` (no overflow is exercised by the
claims); pointer identity of widgets is modelled by a `wid : Nat`
allocation tag.
-/

set_option autoImplicit false

/-- `area_t`: geometry record (x, y, width, height). -/
structure area_t where
  x : Int
  y : Int
  width : Int
  height : Int
  deriving DecidableEq, Repr

/-- `orientation_t`: wibox orientation; `East` is the unrotated state. -/
inductive orientation_t where
  | North
  | South
  | East
  deriving DecidableEq, Repr

/-- Widget constructor capabilities registered in `luaA_widget_new`
(`widget_textbox`, `widget_progressbar`, `widget_graph`, `widget_systray`,
`widget_imagebox`); a value of this type models the constructor function
pointer stored in `widget->type`. -/
inductive widget_constructor_t where
  | widget_textbox
  | widget_progressbar
  | widget_graph
  | widget_systray
  | widget_imagebox
  deriving DecidableEq, Repr

/-- `widget_t`: `wid` models the pointer identity of the allocation;
`extents` models the result of the widget's `extents` capability
(an `area_t`, as returned by `widget->extents(L, widget)`);
`mouse_enter` and `mouse_leave` hold Lua object references
(registry reference numbers). -/
structure widget_t where
  wid : Nat
  wtype : Option widget_constructor_t
  isvisible : Bool
  extents : area_t
  mouse_enter : Option Nat
  mouse_leave : Option Nat
  deriving DecidableEq, Repr

/-- `widget_node_t`: a widget reference paired with its computed geometry. -/
structure widget_node_t where
  widget : widget_t
  geometry : area_t
  deriving DecidableEq, Repr

/-- A value found while traversing the wibox's widget table:
a widget userdatum, a nested table, or any other Lua value
(which `luaA_table2widgets` silently drops). -/
inductive wtable_entry where
  | widgetv (w : widget_t)
  | table (entries : List wtable_entry)
  | nonwidget
  deriving Repr

/-- One entry of the geometry table read back in `widget_render`;
absent fields take defaults there (`luaA_getopt_number`). -/
structure geom_spec where
  x : Option Int
  y : Option Int
  width : Option Int
  height : Option Int
  deriving DecidableEq, Repr

/-- The layout policy: the `layout` field of the widget table when it is a
Lua function.  It receives the logical wibox geometry and the screen index
(the widget-table argument is the wibox's own table, determined by the
wibox, so it is not repeated here) and either fails (`none`, modelling
`luaA_dofunction` failure) or returns the per-widget geometry table. -/
def layout_policy : Type := area_t → Int → Option (List geom_spec)

/-- The wibox's declared widget table: its `layout` field (when a function)
and the entries `luaA_table2widgets` traverses. -/
structure widgets_table_t where
  layout : Option layout_policy
  entries : List wtable_entry

/-- Drawing context of a wibox (`draw_context_t`): physical pixel
dimensions and background color alpha (0 .. 0xffff). -/
structure draw_context_t where
  width : Int
  height : Int
  bg_alpha : Nat
  deriving DecidableEq, Repr

/-- `wibox_t`: the surface state this core reads and mutates. -/
structure wibox_t where
  geometry : area_t
  orientation : orientation_t
  ctx : draw_context_t
  widgets : List widget_node_t
  widgets_table : Option widgets_table_t
  need_update : Bool
  bg_image : Bool
  screen : Int

/-- A client: only its optional titlebar wibox matters to this core. -/
structure client_t where
  titlebar : Option wibox_t

/-- The global state slice used by the invalidation tracker:
`globalconf.wiboxes` and `globalconf.clients`. -/
structure globalconf_t where
  wiboxes : List wibox_t
  clients : List client_t

mutual

/-- `luaA_table2widgets` on a single Lua value: a widget is appended as a
fresh node (`p_clear` zeroes its geometry), a table is recursed into,
anything else is dropped. -/
def table2widgets : wtable_entry → List widget_node_t
  | wtable_entry.widgetv w => [⟨w, ⟨0, 0, 0, 0⟩⟩]
  | wtable_entry.table es => table2widgetsList es
  | wtable_entry.nonwidget => []

/-- `luaA_table2widgets` traversal over the pairs of a table, in
`luaA_next` order. -/
def table2widgetsList : List wtable_entry → List widget_node_t
  | [] => []
  | e :: es => table2widgets e ++ table2widgetsList es

end

/-- Flattening of the wibox's widget table into a node collection, as both
`widget_geometries` (default path) and `widget_render` perform it; a NULL
`widgets_table` pushes nil, which flattens to nothing. -/
def table2widgets_of_wibox (wibox : wibox_t) : List widget_node_t :=
  match wibox.widgets_table with
  | some t => table2widgetsList t.entries
  | none => []

/-- Result of `widget_geometries`: the returned boolean, the wibox's node
collection afterwards, the geometry table left on the stack on success,
and—when the layout policy was invoked—the geometry argument it was
passed. -/
structure geometries_result where
  ok : Bool
  widgets : List widget_node_t
  geom_table : Option (List geom_spec)
  policy_arg : Option area_t
  deriving Repr

/-- `widget_geometries` (src/widget.c lines 134-223).  If the widget table
has a callable `layout` field, the wibox geometry with zeroed origin —
width/height exchanged unless the orientation is East — is passed to the
policy together with the screen index, and evaluator failure propagates as
`ok = false` with the node collection untouched.  Otherwise the node
collection is wiped and rebuilt from the widget table and a geometry table
with x = y = 0 and width/height clamped to the wibox geometry is built. -/
def widget_geometries (wibox : wibox_t) : geometries_result :=
  let layout : Option layout_policy :=
    match wibox.widgets_table with
    | some t => t.layout
    | none => none
  match layout with
  | some policy =>
      let geometry0 : area_t := { wibox.geometry with x := 0, y := 0 }
      let geometry : area_t :=
        if wibox.orientation ≠ orientation_t.East then
          { geometry0 with width := geometry0.height, height := geometry0.width }
        else
          geometry0
      { ok := (policy geometry wibox.screen).isSome,
        widgets := wibox.widgets,
        geom_table := policy geometry wibox.screen,
        policy_arg := some geometry }
  | none =>
      let widgets := table2widgets_of_wibox wibox
      let tbl : List geom_spec := widgets.map (fun w =>
        let g := w.widget.extents
        { x := some 0, y := some 0,
          width := some (min wibox.geometry.width g.width),
          height := some (min wibox.geometry.height g.height) })
      { ok := true, widgets := widgets, geom_table := some tbl,
        policy_arg := none }

/-- Claim C1: in `widget_geometries`, when the widget table has a callable
layout policy, the geometry passed to the policy is the surface geometry
with x and y zeroed; its width and height are swapped relative to the
physical geometry when the orientation is not East, and unswapped for
East. -/
theorem widget_geometries_policy_arg_logical (wibox : wibox_t)
    (t : widgets_table_t) (p : layout_policy)
    (ht : wibox.widgets_table = some t) (hp : t.layout = some p) :
    (widget_geometries wibox).policy_arg =
      some { x := 0, y := 0,
             width := if wibox.orientation = orientation_t.East then
                 wibox.geometry.width
               else
                 wibox.geometry.height,
             height := if wibox.orientation = orientation_t.East then
                 wibox.geometry.height
               else
                 wibox.geometry.width } := by
  simp only [widget_geometries, ht, hp]
  by_cases h : wibox.orientation = orientation_t.East <;> simp [h]

/-- A concrete wibox with a callable layout policy, rotated South. -/
def c1_policy : layout_policy := fun _ _ => some []

def c1_table : widgets_table_t :=
  { layout := some c1_policy, entries := [] }

def c1_wibox : wibox_t :=
  { geometry := ⟨5, 7, 100, 20⟩
    orientation := orientation_t.South
    ctx := ⟨20, 100, 0xffff⟩
    widgets := []
    widgets_table := some c1_table
    need_update := true
    bg_image := false
    screen := 0 }

theorem widget_geometries_policy_arg_logical_witness :
    (widget_geometries c1_wibox).policy_arg = some ⟨0, 0, 20, 100⟩ :=
  widget_geometries_policy_arg_logical c1_wibox c1_table c1_policy rfl rfl

/-- Claim C2: in the default (no callable policy) path of
`widget_geometries`, the call succeeds, the node collection is rebuilt by
flattening the widget table, and the geometry table entry of every
flattened widget is x = 0, y = 0, width = min(surface width, natural
width), height = min(surface height, natural height), where the natural
size is the widget's `extents` result. -/
theorem widget_geometries_default_path (wibox : wibox_t)
    (t : widgets_table_t)
    (ht : wibox.widgets_table = some t) (hl : t.layout = none) :
    (widget_geometries wibox).ok = true ∧
    (widget_geometries wibox).widgets = table2widgetsList t.entries ∧
    (widget_geometries wibox).geom_table =
      some ((table2widgetsList t.entries).map (fun w =>
        { x := some 0, y := some 0,
          width := some (min wibox.geometry.width w.widget.extents.width),
          height := some (min wibox.geometry.height w.widget.extents.height) })) := by
  simp [widget_geometries, table2widgets_of_wibox, ht, hl]

/-- The scenario of claim C2: surface 100x20, orientation South, no
policy, one widget whose `extents` returns (40, 30). -/
def c2_widget : widget_t :=
  { wid := 1, wtype := some widget_constructor_t.widget_textbox,
    isvisible := true, extents := ⟨0, 0, 40, 30⟩,
    mouse_enter := none, mouse_leave := none }

def c2_table : widgets_table_t :=
  { layout := none, entries := [wtable_entry.widgetv c2_widget] }

def c2_wibox : wibox_t :=
  { geometry := ⟨0, 0, 100, 20⟩
    orientation := orientation_t.South
    ctx := ⟨20, 100, 0xffff⟩
    widgets := []
    widgets_table := some c2_table
    need_update := true
    bg_image := false
    screen := 0 }

theorem widget_geometries_default_path_witness :
    (widget_geometries c2_wibox).ok = true ∧
    (widget_geometries c2_wibox).widgets = [⟨c2_widget, ⟨0, 0, 0, 0⟩⟩] ∧
    (widget_geometries c2_wibox).geom_table =
      some [{ x := some 0, y := some 0, width := some 40, height := some 20 }] :=
  widget_geometries_default_path c2_wibox c2_table rfl rfl

/-- Claim C9: `widget_geometries` is idempotent on the node collection:
running it again on the wibox whose node collection is the result of the
first run (no other state changed) produces the same node collection,
and the geometry table of the second run equals that of the first. -/
theorem widget_geometries_idempotent (wibox : wibox_t) :
    (widget_geometries
        { wibox with widgets := (widget_geometries wibox).widgets }).widgets =
      (widget_geometries wibox).widgets ∧
    (widget_geometries
        { wibox with widgets := (widget_geometries wibox).widgets }).geom_table =
      (widget_geometries wibox).geom_table := by
  rcases hwt : wibox.widgets_table with _ | t
  · simp [widget_geometries, table2widgets_of_wibox, hwt]
  · rcases hl : t.layout with _ | p
    · simp [widget_geometries, table2widgets_of_wibox, hwt, hl]
    · simp [widget_geometries, table2widgets_of_wibox, hwt, hl]

/-- One call to the drawing back end, recorded in program order by
`widget_render`. -/
inductive draw_call where
  | query_root_pixmap
  | rotate_background (o : orientation_t)
  | copy_background
  | image_draw
  | rectangle_fill (r : area_t)
  | widget_draw (w : widget_t) (g : area_t)
  | final_rotate (o : orientation_t)
  deriving DecidableEq, Repr

/-- Desktop-background compositing block of `widget_render` (lines
243-288): skipped entirely when the background alpha is 0xffff; otherwise
the root pixmap is queried, and when the reply carries a non-zero pixmap
it is rotate-copied (North / South) or straight-copied (East) into the
context.  `root_pixmap` models the X property reply: `none` for no reply
or empty value, `some p` for a reply carrying pixmap id `p`. -/
def background_composite_calls (root_pixmap : Option Nat) (wibox : wibox_t) :
    List draw_call :=
  if wibox.ctx.bg_alpha ≠ 0xffff then
    draw_call.query_root_pixmap ::
      (match root_pixmap with
       | some rootpix =>
           if rootpix ≠ 0 then
             match wibox.orientation with
             | orientation_t.North => [draw_call.rotate_background orientation_t.North]
             | orientation_t.South => [draw_call.rotate_background orientation_t.South]
             | orientation_t.East => [draw_call.copy_background]
           else []
       | none => [])
  else []

/-- Background-image step of `widget_render` (lines 317-319): the image is
drawn only if present and the background color is not opaque. -/
def bg_image_calls (wibox : wibox_t) : List draw_call :=
  if wibox.bg_image = true ∧ wibox.ctx.bg_alpha ≠ 0xffff then
    [draw_call.image_draw]
  else []

/-- Widget drawing loop of `widget_render` (lines 326-329): each node whose
widget is visible gets one `draw(widget, ctx, geometry, wibox)` call, in
collection order. -/
def visible_draw_calls (widgets : List widget_node_t) : List draw_call :=
  widgets.filterMap (fun n =>
    if n.widget.isvisible = true then
      some (draw_call.widget_draw n.widget n.geometry)
    else none)

/-- Final rotation of `widget_render` (lines 331-347): the composed
context buffer is rotate-copied into the wibox pixmap for North / South;
East needs no rotation. -/
def final_rotate_calls (wibox : wibox_t) : List draw_call :=
  match wibox.orientation with
  | orientation_t.South => [draw_call.final_rotate orientation_t.South]
  | orientation_t.North => [draw_call.final_rotate orientation_t.North]
  | orientation_t.East => []

/-- Geometry read-back of one node (lines 308-311): absent fields default
to the wibox origin and to width = height = 1. -/
def apply_geom_spec (wibox : wibox_t) (node : widget_node_t) (g : geom_spec) :
    widget_node_t :=
  { node with geometry :=
      { x := g.x.getD wibox.geometry.x,
        y := g.y.getD wibox.geometry.y,
        width := g.width.getD 1,
        height := g.height.getD 1 } }

/-- Geometry read-back loop of `widget_render` (lines 303-314): node `i`
takes its geometry from table entry `i`; nodes beyond the table length
keep their zeroed geometry. -/
def apply_geom_table (wibox : wibox_t) :
    List widget_node_t → List geom_spec → List widget_node_t
  | [], _ => []
  | ws, [] => ws
  | w :: ws, g :: gs => apply_geom_spec wibox w g :: apply_geom_table wibox ws gs

/-- Result of `widget_render`: the wibox state afterwards and the ordered
trace of back-end calls. -/
structure render_result where
  wibox : wibox_t
  calls : List draw_call

/-- `widget_render` (src/widget.c lines 229-348).  Resolver failure aborts
before any painting; otherwise the node collection is re-flattened from
the widget table, geometries are read back from the table produced by
`widget_geometries`, and the paint sequence is background compositing,
background image, background color fill, visible-widget draws, final
rotation.  `need_update` is never touched. -/
def widget_render (root_pixmap : Option Nat) (wibox : wibox_t) : render_result :=
  let rectangle : area_t := ⟨0, 0, wibox.ctx.width, wibox.ctx.height⟩
  if (widget_geometries wibox).ok = false then
    { wibox := wibox, calls := [] }
  else
    let widgets := apply_geom_table wibox (table2widgets_of_wibox wibox)
      ((widget_geometries wibox).geom_table.getD [])
    { wibox := { wibox with widgets := widgets },
      calls := background_composite_calls root_pixmap wibox
                ++ bg_image_calls wibox
                ++ [draw_call.rectangle_fill rectangle]
                ++ visible_draw_calls widgets
                ++ final_rotate_calls wibox }

/-- Claim C4: if `widget_geometries` fails, `widget_render` returns with
no back-end call at all and the wibox — in particular its `need_update`
flag — unchanged. -/
theorem widget_render_aborts_on_failure (root_pixmap : Option Nat)
    (wibox : wibox_t) (h : (widget_geometries wibox).ok = false) :
    widget_render root_pixmap wibox = { wibox := wibox, calls := [] } ∧
    (widget_render root_pixmap wibox).wibox.need_update = wibox.need_update := by
  constructor
  · simp [widget_render, h]
  · simp [widget_render, h]

/-- A wibox whose layout policy always fails. -/
def c4_policy : layout_policy := fun _ _ => none

def c4_table : widgets_table_t :=
  { layout := some c4_policy, entries := [] }

def c4_wibox : wibox_t :=
  { geometry := ⟨0, 0, 100, 20⟩
    orientation := orientation_t.East
    ctx := ⟨100, 20, 0⟩
    widgets := []
    widgets_table := some c4_table
    need_update := true
    bg_image := true
    screen := 0 }

theorem widget_render_aborts_on_failure_witness :
    (widget_geometries c4_wibox).ok = false ∧
    widget_render (some 7) c4_wibox = { wibox := c4_wibox, calls := [] } :=
  ⟨rfl, (widget_render_aborts_on_failure (some 7) c4_wibox rfl).1⟩

/-- Projection of a back-end trace onto the widget `draw` calls it
contains, keeping their order and arguments. -/
def draw_calls_of (l : List draw_call) : List (widget_t × area_t) :=
  l.filterMap (fun c => match c with
    | draw_call.widget_draw w g => some (w, g)
    | _ => none)

theorem draw_calls_of_append (a b : List draw_call) :
    draw_calls_of (a ++ b) = draw_calls_of a ++ draw_calls_of b :=
  List.filterMap_append a b _

theorem draw_calls_of_background (rp : Option Nat) (wb : wibox_t) :
    draw_calls_of (background_composite_calls rp wb) = [] := by
  unfold background_composite_calls
  split
  · rcases rp with _ | p
    · rfl
    · by_cases hp : p ≠ 0
      · simp only [if_pos hp]
        cases wb.orientation <;> rfl
      · simp only [if_neg hp]
        rfl
  · rfl

theorem draw_calls_of_bg_image (wb : wibox_t) :
    draw_calls_of (bg_image_calls wb) = [] := by
  unfold bg_image_calls
  split <;> rfl

theorem draw_calls_of_fill (r : area_t) :
    draw_calls_of [draw_call.rectangle_fill r] = [] := rfl

theorem draw_calls_of_final (wb : wibox_t) :
    draw_calls_of (final_rotate_calls wb) = [] := by
  unfold final_rotate_calls
  cases wb.orientation <;> rfl

theorem draw_calls_of_visible (ws : List widget_node_t) :
    draw_calls_of (visible_draw_calls ws) =
      (ws.filter (fun n => n.widget.isvisible)).map
        (fun n => (n.widget, n.geometry)) := by
  induction ws with
  | nil => rfl
  | cons w ws ih =>
      by_cases h : w.widget.isvisible = true <;>
        simp [visible_draw_calls, draw_calls_of, List.filter_cons, h] at ih ⊢ <;>
        exact ih

theorem widget_render_ok_spec (root_pixmap : Option Nat) (wibox : wibox_t)
    (h : (widget_geometries wibox).ok = true) :
    (widget_render root_pixmap wibox).wibox =
      { wibox with
          widgets := apply_geom_table wibox (table2widgets_of_wibox wibox)
            ((widget_geometries wibox).geom_table.getD []) } ∧
    (widget_render root_pixmap wibox).calls =
      background_composite_calls root_pixmap wibox
        ++ bg_image_calls wibox
        ++ [draw_call.rectangle_fill ⟨0, 0, wibox.ctx.width, wibox.ctx.height⟩]
        ++ visible_draw_calls ((widget_render root_pixmap wibox).wibox.widgets)
        ++ final_rotate_calls wibox := by
  constructor <;> simp [widget_render, h]

/-- Claim C5: when the resolver succeeds, the widget draw calls issued by
`widget_render` are exactly — same widgets, same geometries, same order —
those of the visible widgets of the resulting node collection; invisible
widgets contribute no draw call. -/
theorem widget_render_draw_trace (root_pixmap : Option Nat) (wibox : wibox_t)
    (h : (widget_geometries wibox).ok = true) :
    draw_calls_of (widget_render root_pixmap wibox).calls =
      ((widget_render root_pixmap wibox).wibox.widgets.filter
          (fun n => n.widget.isvisible)).map
        (fun n => (n.widget, n.geometry)) := by
  obtain ⟨_, hc⟩ := widget_render_ok_spec root_pixmap wibox h
  rw [hc]
  simp only [draw_calls_of_append, draw_calls_of_background,
             draw_calls_of_bg_image, draw_calls_of_fill, draw_calls_of_final,
             draw_calls_of_visible, List.nil_append, List.append_nil]

/-- Two-widget scenario for the draw trace: one visible, one invisible. -/
def c5_widget_a : widget_t :=
  { wid := 10, wtype := some widget_constructor_t.widget_textbox,
    isvisible := true, extents := ⟨0, 0, 40, 30⟩,
    mouse_enter := none, mouse_leave := none }

def c5_widget_b : widget_t :=
  { wid := 11, wtype := some widget_constructor_t.widget_graph,
    isvisible := false, extents := ⟨0, 0, 10, 10⟩,
    mouse_enter := none, mouse_leave := none }

def c5_wibox : wibox_t :=
  { geometry := ⟨0, 0, 100, 20⟩
    orientation := orientation_t.East
    ctx := ⟨100, 20, 0⟩
    widgets := []
    widgets_table := some { layout := none,
                            entries := [wtable_entry.widgetv c5_widget_a,
                                        wtable_entry.widgetv c5_widget_b] }
    need_update := true
    bg_image := false
    screen := 0 }

theorem widget_render_draw_trace_witness :
    (widget_geometries c5_wibox).ok = true ∧
    draw_calls_of (widget_render none c5_wibox).calls =
      [(c5_widget_a, ⟨0, 0, 40, 20⟩)] :=
  ⟨rfl, widget_render_draw_trace none c5_wibox rfl⟩

/-- The back-end calls that belong to the desktop-background compositing
and background-image steps. -/
def is_background_call : draw_call → Bool
  | draw_call.query_root_pixmap => true
  | draw_call.rotate_background _ => true
  | draw_call.copy_background => true
  | draw_call.image_draw => true
  | _ => false

/-- Sub-trace of background compositing / image calls. -/
def background_calls (l : List draw_call) : List draw_call :=
  l.filter is_background_call

theorem background_composite_calls_opaque (rp : Option Nat) (wb : wibox_t)
    (h : wb.ctx.bg_alpha = 0xffff) :
    background_composite_calls rp wb = [] := by
  simp [background_composite_calls, h]

theorem bg_image_calls_opaque (wb : wibox_t)
    (h : wb.ctx.bg_alpha = 0xffff) :
    bg_image_calls wb = [] := by
  simp [bg_image_calls, h]

theorem background_calls_visible (ws : List widget_node_t) :
    background_calls (visible_draw_calls ws) = [] := by
  induction ws with
  | nil => rfl
  | cons w ws ih =>
      by_cases h : w.widget.isvisible = true <;>
        simp [visible_draw_calls, background_calls, is_background_call, h,
              List.filter_cons] at ih ⊢ <;>
        exact ih

theorem background_calls_final (wb : wibox_t) :
    background_calls (final_rotate_calls wb) = [] := by
  unfold final_rotate_calls
  cases wb.orientation <;> rfl

/-- Claim C6: when the background color is fully opaque (alpha = 0xffff),
the trace of `widget_render` contains no root-pixmap query, no background
rotate-copy or straight-copy, and no background-image draw. -/
theorem widget_render_opaque_skips_background (root_pixmap : Option Nat)
    (wibox : wibox_t) (h : wibox.ctx.bg_alpha = 0xffff) :
    background_calls (widget_render root_pixmap wibox).calls = [] := by
  by_cases hok : (widget_geometries wibox).ok = false
  · simp [widget_render, hok, background_calls]
  · have hok' : (widget_geometries wibox).ok = true := by
      simpa using hok
    obtain ⟨_, hc⟩ := widget_render_ok_spec root_pixmap wibox hok'
    have hv := background_calls_visible
      ((widget_render root_pixmap wibox).wibox.widgets)
    have hf := background_calls_final wibox
    unfold background_calls at hv hf ⊢
    rw [hc, background_composite_calls_opaque root_pixmap wibox h,
        bg_image_calls_opaque wibox h]
    simp [List.filter_append, hv, hf, is_background_call]

/-- Opaque-background scenario: alpha = 0xffff, background image present,
root pixmap available. -/
def c6_wibox : wibox_t :=
  { geometry := ⟨0, 0, 100, 20⟩
    orientation := orientation_t.South
    ctx := ⟨20, 100, 0xffff⟩
    widgets := []
    widgets_table := some { layout := none,
                            entries := [wtable_entry.widgetv c5_widget_a] }
    need_update := true
    bg_image := true
    screen := 0 }

theorem widget_render_opaque_skips_background_witness :
    c6_wibox.ctx.bg_alpha = 0xffff ∧
    background_calls (widget_render (some 5) c6_wibox).calls = [] :=
  ⟨rfl, widget_render_opaque_skips_background (some 5) c6_wibox rfl⟩

/-- Pointer-identity test used by the invalidation scans
(`wnode->widget == widget`): two widget references are the same object
exactly when their allocation tags agree. -/
def node_has_widget (widget : widget_t) (n : widget_node_t) : Bool :=
  n.widget.wid == widget.wid

/-- `widget_invalidate_bywidget` (src/widget.c lines 368-391): every wibox
of the global list that is not already dirty and whose node collection
contains the widget gets `need_update = true`; every client's titlebar
(when present and not already dirty) is scanned under the same rule. -/
def widget_invalidate_bywidget (widget : widget_t) (conf : globalconf_t) :
    globalconf_t :=
  { wiboxes := conf.wiboxes.map (fun wb =>
      if wb.need_update = false ∧ wb.widgets.any (node_has_widget widget) then
        { wb with need_update := true }
      else wb),
    clients := conf.clients.map (fun c =>
      match c.titlebar with
      | some tb =>
          if tb.need_update = false ∧ tb.widgets.any (node_has_widget widget) then
            { titlebar := some { tb with need_update := true } }
          else c
      | none => c) }

theorem wibox_set_need_update_of_true (wb : wibox_t) (h : wb.need_update = true) :
    ({ wb with need_update := true } : wibox_t) = wb := by
  cases wb
  simp_all

/-- Claim C3: `widget_invalidate_bywidget W` sets `need_update` to true on
every wibox and every titlebar whose node collection contains `W`, and
maps every other surface to itself, leaving its dirty flag — even a false
one — unchanged. -/
theorem widget_invalidate_bywidget_spec (W : widget_t) (conf : globalconf_t) :
    (widget_invalidate_bywidget W conf).wiboxes =
      conf.wiboxes.map (fun wb =>
        if wb.widgets.any (node_has_widget W) then
          { wb with need_update := true }
        else wb) ∧
    (widget_invalidate_bywidget W conf).clients =
      conf.clients.map (fun c =>
        match c.titlebar with
        | some tb =>
            if tb.widgets.any (node_has_widget W) then
              { titlebar := some { tb with need_update := true } }
            else c
        | none => c) := by
  constructor
  · show List.map _ conf.wiboxes = List.map _ conf.wiboxes
    induction conf.wiboxes with
    | nil => rfl
    | cons wb l ih =>
        simp only [List.map_cons, ih]
        congr 1
        by_cases hc : wb.widgets.any (node_has_widget W) = true
        · by_cases hu : wb.need_update = true
          · simp [hc, hu, wibox_set_need_update_of_true wb hu]
          · simp only [Bool.not_eq_true] at hu
            simp [hc, hu]
        · simp [hc]
  · show List.map _ conf.clients = List.map _ conf.clients
    induction conf.clients with
    | nil => rfl
    | cons c l ih =>
        simp only [List.map_cons, ih]
        congr 1
        rcases c with ⟨_ | tb⟩
        · rfl
        · by_cases hc : tb.widgets.any (node_has_widget W) = true
          · by_cases hu : tb.need_update = true
            · simp [hc, hu, wibox_set_need_update_of_true tb hu]
            · simp only [Bool.not_eq_true] at hu
              simp [hc, hu]
          · simp [hc]

/-- A Lua value on the stack, as far as the generic setter inspects it. -/
inductive lua_value where
  | boolean (b : Bool)
  | funcv (ref : Nat)
  | otherv
  deriving DecidableEq, Repr

/-- Lua-side side effects of the generic setter, in program order:
object-item reference release / acquisition and the call to
`widget_invalidate_bywidget`. -/
inductive lua_effect where
  | unref_item (r : Option Nat)
  | ref_item (r : Nat)
  | invalidate_call (wid : Nat)
  | delegate
  deriving DecidableEq, Repr

/-- `luaA_checkboolean`: errors (here `none`) unless the value is a
boolean. -/
def luaA_checkboolean : lua_value → Option Bool
  | lua_value.boolean b => some b
  | _ => none

/-- `luaA_checkfunction`: errors (here `none`) unless the value is a
function. -/
def luaA_checkfunction : lua_value → Option Nat
  | lua_value.funcv r => some r
  | _ => none

/-- Tokens of `a_tokenize` relevant to this file (the generic property
keys and the widget type names); every other string maps to
`a_tk_none`. -/
inductive awesome_token_t where
  | a_tk_visible
  | a_tk_mouse_enter
  | a_tk_mouse_leave
  | a_tk_textbox
  | a_tk_progressbar
  | a_tk_graph
  | a_tk_systray
  | a_tk_imagebox
  | a_tk_none
  deriving DecidableEq, Repr

def a_tokenize : Option String → awesome_token_t
  | some "visible" => awesome_token_t.a_tk_visible
  | some "mouse_enter" => awesome_token_t.a_tk_mouse_enter
  | some "mouse_leave" => awesome_token_t.a_tk_mouse_leave
  | some "textbox" => awesome_token_t.a_tk_textbox
  | some "progressbar" => awesome_token_t.a_tk_progressbar
  | some "graph" => awesome_token_t.a_tk_graph
  | some "systray" => awesome_token_t.a_tk_systray
  | some "imagebox" => awesome_token_t.a_tk_imagebox
  | _ => awesome_token_t.a_tk_none

/-- `luaA_widget_newindex` (src/widget.c lines 513-543): `visible` checks
a boolean, stores it and falls through to `widget_invalidate_bywidget`;
`mouse_enter` / `mouse_leave` check a function, release the old item
reference, acquire the new one and return at once; any other key
delegates to the widget's type-specific `newindex` capability and also
returns without invalidating.  A failed check (Lua type error) is
`none`. -/
def luaA_widget_newindex (widget : widget_t) (key : String) (value : lua_value) :
    Option (widget_t × List lua_effect) :=
  match a_tokenize (some key) with
  | awesome_token_t.a_tk_visible =>
      match luaA_checkboolean value with
      | some b =>
          some ({ widget with isvisible := b },
                [lua_effect.invalidate_call widget.wid])
      | none => none
  | awesome_token_t.a_tk_mouse_enter =>
      match luaA_checkfunction value with
      | some r =>
          some ({ widget with mouse_enter := some r },
                [lua_effect.unref_item widget.mouse_enter, lua_effect.ref_item r])
      | none => none
  | awesome_token_t.a_tk_mouse_leave =>
      match luaA_checkfunction value with
      | some r =>
          some ({ widget with mouse_leave := some r },
                [lua_effect.unref_item widget.mouse_leave, lua_effect.ref_item r])
      | none => none
  | _ => some (widget, [lua_effect.delegate])

/-- Recognizer for the invalidation effect. -/
def is_invalidate_effect : lua_effect → Bool
  | lua_effect.invalidate_call _ => true
  | _ => false

/-- Sub-trace of `widget_invalidate_bywidget` calls in an effect list. -/
def invalidate_effects (l : List lua_effect) : List lua_effect :=
  l.filter is_invalidate_effect

/-- Effect trace of one setter call (empty on a type error). -/
def newindex_effects (widget : widget_t) (key : String) (value : lua_value) :
    List lua_effect :=
  ((luaA_widget_newindex widget key value).map Prod.snd).getD []

/-- Claim C7: writing `visible` stores the boolean and then calls
`widget_invalidate_bywidget` on the widget; writing `mouse_enter` or
`mouse_leave` releases the old hook reference, acquires the new one and
returns immediately — its effect trace contains no invalidation call. -/
theorem luaA_widget_newindex_spec (w : widget_t) (b : Bool) (r : Nat) :
    luaA_widget_newindex w "visible" (lua_value.boolean b)
      = some ({ w with isvisible := b }, [lua_effect.invalidate_call w.wid]) ∧
    luaA_widget_newindex w "mouse_enter" (lua_value.funcv r)
      = some ({ w with mouse_enter := some r },
              [lua_effect.unref_item w.mouse_enter, lua_effect.ref_item r]) ∧
    luaA_widget_newindex w "mouse_leave" (lua_value.funcv r)
      = some ({ w with mouse_leave := some r },
              [lua_effect.unref_item w.mouse_leave, lua_effect.ref_item r]) ∧
    invalidate_effects (newindex_effects w "visible" (lua_value.boolean b))
      = [lua_effect.invalidate_call w.wid] ∧
    invalidate_effects (newindex_effects w "mouse_enter" (lua_value.funcv r)) = [] ∧
    invalidate_effects (newindex_effects w "mouse_leave" (lua_value.funcv r)) = [] :=
  ⟨rfl, rfl, rfl, rfl, rfl, rfl⟩

/-- The `wc` selection of `luaA_widget_new` (lines 412-431): the closed
token-to-constructor map, `NULL` for every other token. -/
def wc_of_token : awesome_token_t → Option widget_constructor_t
  | awesome_token_t.a_tk_textbox => some widget_constructor_t.widget_textbox
  | awesome_token_t.a_tk_progressbar => some widget_constructor_t.widget_progressbar
  | awesome_token_t.a_tk_graph => some widget_constructor_t.widget_graph
  | awesome_token_t.a_tk_systray => some widget_constructor_t.widget_systray
  | awesome_token_t.a_tk_imagebox => some widget_constructor_t.widget_imagebox
  | _ => none

/-- A freshly allocated, zeroed widget (`widget_new`). -/
def widget_new_blank (fresh_wid : Nat) : widget_t :=
  { wid := fresh_wid, wtype := none, isvisible := false,
    extents := ⟨0, 0, 0, 0⟩, mouse_enter := none, mouse_leave := none }

/-- Result of `luaA_widget_new`: the constructed widget (if any) and the
number of `luaA_warn` calls emitted. -/
structure widget_new_result where
  widget : Option widget_t
  warnings : Nat
  deriving Repr

/-- `luaA_widget_new` (src/widget.c lines 400-450): tokenize the `type`
string, map it to a constructor; on success allocate a widget, run the
constructor, record the type and set `isvisible = true`; otherwise emit
one warning and return no widget. -/
def luaA_widget_new (fresh_wid : Nat) (type_name : Option String) :
    widget_new_result :=
  match wc_of_token (a_tokenize type_name) with
  | some wc =>
      let w := widget_new_blank fresh_wid
      let w := { w with wtype := some wc }
      let w := { w with isvisible := true }
      { widget := some w, warnings := 0 }
  | none => { widget := none, warnings := 1 }

theorem wc_of_token_none (type_name : Option String)
    (h : type_name ∉ [some "textbox", some "progressbar", some "graph",
                      some "systray", some "imagebox"]) :
    wc_of_token (a_tokenize type_name) = none := by
  unfold a_tokenize
  split <;> simp_all [wc_of_token]

/-- Claim C8: `luaA_widget_new` maps exactly the five type names
`textbox`, `progressbar`, `graph`, `systray`, `imagebox` to their
constructors, setting the new widget visible; every other type name
yields no widget and exactly one warning. -/
theorem luaA_widget_new_spec (fresh_wid : Nat) (type_name : Option String) :
    luaA_widget_new fresh_wid (some "textbox")
      = { widget := some { widget_new_blank fresh_wid with
            wtype := some widget_constructor_t.widget_textbox,
            isvisible := true },
          warnings := 0 } ∧
    luaA_widget_new fresh_wid (some "progressbar")
      = { widget := some { widget_new_blank fresh_wid with
            wtype := some widget_constructor_t.widget_progressbar,
            isvisible := true },
          warnings := 0 } ∧
    luaA_widget_new fresh_wid (some "graph")
      = { widget := some { widget_new_blank fresh_wid with
            wtype := some widget_constructor_t.widget_graph,
            isvisible := true },
          warnings := 0 } ∧
    luaA_widget_new fresh_wid (some "systray")
      = { widget := some { widget_new_blank fresh_wid with
            wtype := some widget_constructor_t.widget_systray,
            isvisible := true },
          warnings := 0 } ∧
    luaA_widget_new fresh_wid (some "imagebox")
      = { widget := some { widget_new_blank fresh_wid with
            wtype := some widget_constructor_t.widget_imagebox,
            isvisible := true },
          warnings := 0 } ∧
    (type_name ∉ [some "textbox", some "progressbar", some "graph",
                  some "systray", some "imagebox"] →
      luaA_widget_new fresh_wid type_name
        = { widget := none, warnings := 1 }) := by
  refine ⟨rfl, rfl, rfl, rfl, rfl, fun h => ?_⟩
  unfold luaA_widget_new
  rw [wc_of_token_none type_name h]

theorem luaA_widget_new_spec_witness :
    luaA_widget_new 0 (some "bogus") = { widget := none, warnings := 1 } :=
  (luaA_widget_new_spec 0 (some "bogus")).2.2.2.2.2 (by decide)

/-- Hit-test loop of `widget_getbycoords` (lines 89-95): first node, in
collection order, whose widget is visible and whose geometry contains the
(already transformed) point; `none` models the NULL return. -/
def widget_getbycoords_loop (x y : Int) : List widget_node_t → Option widget_t
  | [] => none
  | w :: ws =>
      if w.widget.isvisible = true
          ∧ w.geometry.x ≤ x ∧ x < w.geometry.x + w.geometry.width
          ∧ w.geometry.y ≤ y ∧ y < w.geometry.y + w.geometry.height then
        some w.widget
      else
        widget_getbycoords_loop x y ws

/-- `widget_getbycoords` (src/widget.c lines 67-96): the coordinate switch
(South: tmp = y; y := width − x; x := tmp.  North: tmp = y; y := x;
x := height − tmp.  East: unchanged) followed by the hit-test loop;
returns the found widget together with the transformed coordinates the
function stores back through its two out-pointers. -/
def widget_getbycoords (orientation : orientation_t)
    (widgets : List widget_node_t) (width height : Int) (x y : Int) :
    Option widget_t × Int × Int :=
  let xy : Int × Int :=
    match orientation with
    | orientation_t.South => (y, width - x)
    | orientation_t.North => (height - y, x)
    | orientation_t.East => (x, y)
  (widget_getbycoords_loop xy.1 xy.2 widgets, xy.1, xy.2)

/-- The orientation transform as the claim states it: South sends (x, y)
to (y, width − x); North sends it to (height − y, x); East leaves it
unchanged. -/
def spec_transform (orientation : orientation_t) (width height x y : Int) :
    Int × Int :=
  match orientation with
  | orientation_t.South => (y, width - x)
  | orientation_t.North => (height - y, x)
  | orientation_t.East => (x, y)

/-- Half-open containment g.x ≤ px < g.x + g.width, g.y ≤ py < g.y +
g.height. -/
def spec_point_in (px py : Int) (g : area_t) : Bool :=
  decide (g.x ≤ px ∧ px < g.x + g.width ∧ g.y ≤ py ∧ py < g.y + g.height)

theorem widget_getbycoords_loop_eq_find (x y : Int) (ws : List widget_node_t) :
    widget_getbycoords_loop x y ws
      = (ws.find? (fun w => w.widget.isvisible && spec_point_in x y w.geometry)).map
          widget_node_t.widget := by
  induction ws with
  | nil => rfl
  | cons w ws ih =>
      have hiff : (w.widget.isvisible && spec_point_in x y w.geometry) = true ↔
          (w.widget.isvisible = true
            ∧ w.geometry.x ≤ x ∧ x < w.geometry.x + w.geometry.width
            ∧ w.geometry.y ≤ y ∧ y < w.geometry.y + w.geometry.height) := by
        simp [spec_point_in, Bool.and_eq_true]
      by_cases h : w.widget.isvisible = true
          ∧ w.geometry.x ≤ x ∧ x < w.geometry.x + w.geometry.width
          ∧ w.geometry.y ≤ y ∧ y < w.geometry.y + w.geometry.height
      · have hp : (w.widget.isvisible && spec_point_in x y w.geometry) = true :=
          hiff.mpr h
        have hsp : spec_point_in x y w.geometry = true := by
          simpa [h.1] using hp
        simp [widget_getbycoords_loop, List.find?, h, hp, hsp]
      · have hp : (w.widget.isvisible && spec_point_in x y w.geometry) = false :=
          Bool.eq_false_iff.mpr (fun hc => h (hiff.mp hc))
        simp [widget_getbycoords_loop, List.find?, h, hp, ih]

/-- Claim C10: `widget_getbycoords` transforms the query point by the
orientation switch (South: new x = old y, new y = width − old x; North:
new x = height − old y, new y = old x; East: unchanged), then returns the
first node in collection order whose widget is visible and whose geometry
contains the transformed point in the half-open sense, and `none` (NULL)
when no node matches; the transformed point is stored back. -/
theorem widget_getbycoords_spec (orientation : orientation_t)
    (widgets : List widget_node_t) (width height x y : Int) :
    widget_getbycoords orientation widgets width height x y
      = ((widgets.find? (fun w => w.widget.isvisible &&
            spec_point_in (spec_transform orientation width height x y).1
              (spec_transform orientation width height x y).2 w.geometry)).map
            widget_node_t.widget,
         spec_transform orientation width height x y) := by
  cases orientation <;>
    simp [widget_getbycoords, spec_transform, widget_getbycoords_loop_eq_find]
